import Mathlib

/-!
Verification development for the Jarvis-AI multi-agent message bus and
conversational state machine (src/main.py and src/network/).

The Python source is shallowly embedded: each relevant Python function is
translated into an executable Lean definition over explicit state, with the
external reasoning service (LLM), the Google calendar service and the Gmail
service modelled as oracle parameters, exactly as the specification treats
them (opaque collaborators).  Strings are Lean strings; Python `datetime`
values are modelled by the `DT` structure (minute precision, which is the
precision the source uses everywhere: it parses and formats with the
"%Y-%m-%d %H:%M" family of formats).
-/

/- ## String utilities

The source manipulates Python strings with `.lower()`, `.strip()`,
`.split(sep)`, and the `in` substring operator.  Core Lean `String`
operations are byte-position based and do not reduce in the kernel, so the
same operations are defined here over the character list of the string. -/

/-- Model of the Python whitespace class `\s` (and of `str.strip()`), which
accepts space, tab, newline, carriage return, vertical tab and form feed. -/
def pySpace (c : Char) : Bool :=
  c = ' ' || c = '\t' || c = '\n' || c = '\r' || c = Char.ofNat 11 || c = Char.ofNat 12

/-- Python `str.lower()` (ASCII-faithful; the source only compares ASCII
role names and keywords). -/
def strLower (s : String) : String :=
  String.mk (s.data.map Char.toLower)

/-- Python `str.strip()`: remove leading and trailing whitespace. -/
def pyStrip (s : String) : String :=
  String.mk (((s.data.dropWhile pySpace).reverse.dropWhile pySpace).reverse)

/-- List-of-characters test used to model the Python substring operator:
`charPre needle hay` is true when `needle` is an initial segment of `hay`. -/
def charPre : List Char → List Char → Bool
  | [], _ => true
  | _ :: _, [] => false
  | a :: as, b :: bs => a = b && charPre as bs

/-- List-of-characters substring occurrence test. -/
def charSub (needle : List Char) : List Char → Bool
  | [] => charPre needle []
  | c :: rest => charPre needle (c :: rest) || charSub needle rest

/-- Python `needle in hay` on strings. -/
def strContains (hay needle : String) : Bool :=
  charSub needle.data hay.data

/-- Python `str.split(sep)` for a one-character separator, on character
lists.  Splitting the empty list yields one empty field, like Python
`"".split("-") == [""]`. -/
def splitCh (sep : Char) : List Char → List (List Char)
  | [] => [[]]
  | c :: rest =>
    if c = sep then [] :: splitCh sep rest
    else
      match splitCh sep rest with
      | [] => [[c]]
      | h :: t => (c :: h) :: t

/-- Python `str.split(sep)` for strings with a one-character separator. -/
def strSplit (s : String) (sep : Char) : List String :=
  (splitCh sep s.data).map String.mk

/-- Local part of an email address: Python `email.split('@')[0]`, as used
whenever the source turns an attendee email back into a node id. -/
def localPart (email : String) : String :=
  String.mk ((splitCh (Char.ofNat 64) email.data).headD [])

/-- Digit-string parsing: `some n` when the characters are one or more
decimal digits, as Python `strptime` directives match. -/
def digitsToNat : List Char → Option Nat
  | [] => none
  | l =>
    if l.all Char.isDigit then
      some (l.foldl (fun a c => a * 10 + (c.toNat - 48)) 0)
    else none

/- ## Dates and times

Python `datetime` at the minute precision the source uses. -/

/-- Minute-precision civil datetime, the shallow embedding of the Python
`datetime` values produced by `datetime.strptime(..., "%Y-%m-%d %H:%M")`
and compared with `datetime.now()`. -/
structure DT where
  year : Nat
  month : Nat
  day : Nat
  hour : Nat
  minute : Nat
deriving DecidableEq, Repr

/-- Gregorian leap-year test. -/
def isLeap (y : Nat) : Bool :=
  (y % 4 = 0 && y % 100 ≠ 0) || (y % 400 = 0)

/-- Number of days in a month of a given year. -/
def daysInMonth (y m : Nat) : Nat :=
  if m = 2 then (if isLeap y then 29 else 28)
  else if m = 4 || m = 6 || m = 9 || m = 11 then 30
  else 31

/-- Days contributed by the months of year `y` strictly before month `m`. -/
def monthDaysBefore (y m : Nat) : Nat :=
  (List.range (m - 1)).foldl (fun a i => a + daysInMonth y (i + 1)) 0

/-- Days contributed by the years strictly before year `y` (proleptic
Gregorian). -/
def daysBeforeYear (y : Nat) : Nat :=
  (y - 1) * 365 + (y - 1) / 4 - (y - 1) / 100 + (y - 1) / 400

/-- Ordinal day number of a civil date. -/
def dayNumber (y m d : Nat) : Nat :=
  daysBeforeYear y + monthDaysBefore y m + d

/-- Minutes on a linear time scale; comparing two `DT`s through this map is
the embedding of Python `datetime` comparison. -/
def dtAbsMin (t : DT) : Nat :=
  dayNumber t.year t.month t.day * 1440 + t.hour * 60 + t.minute

/-- Python `a < b` on datetimes. -/
def dtLt (a b : DT) : Bool :=
  dtAbsMin a < dtAbsMin b

/-- Python `d + timedelta(days=1)` restricted to the calendar date, keeping
the clock time. -/
def nextDay (t : DT) : DT :=
  if t.day < daysInMonth t.year t.month then
    { t with day := t.day + 1 }
  else if t.month < 12 then
    { t with month := t.month + 1, day := 1 }
  else
    { year := t.year + 1, month := 1, day := 1, hour := t.hour, minute := t.minute }

/-- Iterated day increment. -/
def iterNextDay : Nat → DT → DT
  | 0, t => t
  | n + 1, t => iterNextDay n (nextDay t)

/-- Python `t + timedelta(minutes=m)`. -/
def addMinutes (t : DT) (m : Nat) : DT :=
  let total := t.hour * 60 + t.minute + m
  let moved := iterNextDay (total / 1440) { t with hour := 0, minute := 0 }
  { moved with hour := total % 1440 / 60, minute := total % 1440 % 60 }

/-- Component parser for one `strptime` directive: one to `maxLen` decimal
digits, exactly as Python `strptime` number matching works. -/
def parseComp (s : String) (maxLen : Nat) : Option Nat :=
  if 1 ≤ s.data.length && s.data.length ≤ maxLen then digitsToNat s.data else none

/-- Embedding of `datetime.strptime(s, "%Y-%m-%d %H:%M")`: strict format
check plus the range validation `strptime` performs (month 1-12, day valid
for the month, hour 0-23, minute 0-59, year 1-9999); `none` models the
`ValueError` the source catches. -/
def parseDateTime (s : String) : Option DT :=
  match strSplit s ' ' with
  | [dpart, tpart] =>
    match strSplit dpart '-', strSplit tpart ':' with
    | [ys, ms, ds], [hs, mins] =>
      match parseComp ys 4, parseComp ms 2, parseComp ds 2, parseComp hs 2, parseComp mins 2 with
      | some y, some mo, some d, some h, some mi =>
        if 1 ≤ y && y ≤ 9999 && 1 ≤ mo && mo ≤ 12 && 1 ≤ d &&
            d ≤ daysInMonth y mo && h ≤ 23 && mi ≤ 59 then
          some ⟨y, mo, d, h, mi⟩
        else none
      | _, _, _, _, _ => none
    | _, _ => none
  | _ => none

/-- Zero-padded two-digit rendering, as `%m`, `%d`, `%H`, `%M` produce. -/
def pad2 (n : Nat) : String :=
  if n < 10 then "0" ++ toString n else toString n

/-- Zero-padded four-digit rendering, as `%Y` produces. -/
def pad4 (n : Nat) : String :=
  if n < 10 then "000" ++ toString n
  else if n < 100 then "00" ++ toString n
  else if n < 1000 then "0" ++ toString n
  else toString n

/-- Python `dt.strftime("%Y-%m-%d")`. -/
def formatYmd (t : DT) : String :=
  pad4 t.year ++ "-" ++ pad2 t.month ++ "-" ++ pad2 t.day

/-- Python `dt.strftime("%H:%M")`. -/
def formatHm (t : DT) : String :=
  pad2 t.hour ++ ":" ++ pad2 t.minute

/-- Python `str(dt)` at minute precision (seconds are always zero for the
datetimes the source builds this way). -/
def strOfDT (t : DT) : String :=
  formatYmd t ++ " " ++ formatHm t ++ ":00"

/- ## Message bus (Network in src/main.py, Intercom in src/network/)

The spec follows the monolithic `main.py` implementation where the two
bus implementations differ; `Network.send_message` / `Network.add_task` /
`Network.get_tasks_for_node` are embedded here.  A node is represented by
its registered identifier; the synchronous effects of one bus call are
recorded as an ordered event trace. -/

/-- One observable effect of a bus call, in execution order: the log entry
written by `_log_message`, a synchronous `receive_message(content, sender)`
invocation on a registered recipient, or the printed diagnostic for an
unknown recipient. -/
inductive BusEv where
  | log (sender recipient content : String)
  | recv (recipient content sender : String)
  | diag (message : String)
deriving DecidableEq, Repr

/-- Embedding of `Network.send_message` (src/main.py lines 125-151): the
message is always logged first; if the recipient is registered its
`receive_message` is invoked synchronously, otherwise a diagnostic naming
the recipient is printed and nothing is raised (the function is total). -/
def sendMessage (nodes : List String) (sender recipient content : String) : List BusEv :=
  BusEv.log sender recipient content ::
    (if recipient ∈ nodes then
      [BusEv.recv recipient content sender]
    else
      [BusEv.diag ("Node " ++ recipient ++ " not found in the network.")])

/-- Model of Python's built-in `hash` on strings.  Within one process the
hash is a fixed deterministic function of its input string; its exact
values are irrelevant to every claim (only determinism matters), so it is
modelled by a concrete deterministic polynomial hash. -/
def pyHash (s : String) : Int :=
  s.data.foldl (fun a c => a * 31 + (c.toNat : Int)) 7

/-- Task record, embedding the `Task` class of src/main.py (lines 54-79).
The `id` field is computed by `mkTask` exactly as `Task.__init__` does and
is never written anywhere else in the source. -/
structure TaskRec where
  title : String
  description : String
  due : DT
  assignedTo : String
  priority : String
  projectId : String
  completed : Bool
  id : String
deriving DecidableEq, Repr

/-- Embedding of `Task.__init__` (src/main.py lines 54-64): `completed`
starts false and `id` is the string
`"task_" + str(hash(title + assigned_to + str(due_date)))`. -/
def mkTask (title description : String) (due : DT) (assignedTo priority projectId : String) : TaskRec :=
  { title := title
    description := description
    due := due
    assignedTo := assignedTo
    priority := priority
    projectId := projectId
    completed := false
    id := "task_" ++ toString (pyHash (title ++ assignedTo ++ strOfDT due)) }

/-- Notification string built by `Network.add_task` (src/main.py line 201). -/
def taskNotificationMessage (t : TaskRec) : String :=
  "New task assigned: " ++ t.title ++ ". Due: " ++ formatYmd t.due ++
    ". Priority: " ++ t.priority ++ "."

/-- Bus state: the registered node identifiers and the append-only task
list. -/
structure BusState where
  nodes : List String
  tasks : List TaskRec
deriving Repr

/-- Embedding of `Network.add_task` (src/main.py lines 178-204): the task
is appended to the task list, and if its assignee is registered a
notification is routed through `send_message` from the reserved sender
`"system"`. -/
def addTask (net : BusState) (t : TaskRec) : BusState × List BusEv :=
  let net' := { net with tasks := net.tasks ++ [t] }
  if t.assignedTo ∈ net.nodes then
    (net', sendMessage net.nodes "system" t.assignedTo (taskNotificationMessage t))
  else
    (net', [])

/-- Embedding of `Network.get_tasks_for_node` (src/main.py lines 206-221). -/
def getTasksForNode (net : BusState) (nodeId : String) : List TaskRec :=
  net.tasks.filter (fun t => t.assignedTo = nodeId)

/- ## Node dispatch (LLMNode.receive_message, src/main.py lines 557-661)

The dispatch is embedded as a function from the node's dialog flags, the
oracle results of the three LLM-backed detectors, the sender and the
message, to the ordered list of processing steps the Python method
performs before returning.  Each `NodeStep` constructor names the Python
call made at that point. -/

/-- Oracle result of `_detect_calendar_intent`. -/
structure CalendarIntent where
  isCalendarCommand : Bool
  action : Option String
  missingInfo : List String
deriving DecidableEq, Repr

/-- Oracle result of `_detect_send_email_intent`. -/
structure EmailIntent where
  isSendEmail : Bool
  recipient : String
  subject : String
  body : String
  missingInfo : List String
deriving DecidableEq, Repr

/-- One step taken by `receive_message`, named after the Python function it
invokes (or, for `appendHistory`, the conversation-history mutation at
line 656 and, for `llmFallback`, the conversational LLM reply at lines
658-661). -/
inductive NodeStep where
  | listTasks
  | planProject (projectId objective : String)
  | continueMeeting
  | continueEmail
  | detectCalendarIntent
  | startMeetingCreation
  | handleMeetingCreation
  | handleMeetingCancellation
  | handleListMeetings
  | handleMeetingRescheduling
  | detectSendEmailIntent
  | startEmailComposition
  | detectEmailAnalysis
  | processAdvancedEmailCommand
  | appendHistory (entry : String)
  | llmFallback
deriving DecidableEq, Repr

/-- Character class `[\w-]` of the plan-command regex (ASCII `\w` plus the
hyphen). -/
def isWordChar (c : Char) : Bool :=
  c.isAlphanum || c = '_' || c = '-'

/-- Embedding of the quick-command regex match
`re.match(r"^\s*plan\s+([\w-]+)\s*=\s*(.+)$", message.strip(), re.IGNORECASE)`
(src/main.py line 589): returns the two captured groups on success.  The
`.+$` tail (no DOTALL) succeeds only on a nonempty remainder free of
newlines, since the string was already stripped. -/
def planMatch (message : String) : Option (String × String) :=
  let s := (pyStrip message).data.dropWhile pySpace
  match s with
  | c1 :: c2 :: c3 :: c4 :: rest =>
    if String.mk ([c1, c2, c3, c4].map Char.toLower) = "plan" then
      if (rest.takeWhile pySpace).isEmpty then none
      else
        let rest1 := rest.dropWhile pySpace
        let idChars := rest1.takeWhile isWordChar
        if idChars.isEmpty then none
        else
          match (rest1.dropWhile isWordChar).dropWhile pySpace with
          | '=' :: rest3 =>
            let rest4 := rest3.dropWhile pySpace
            if rest4.isEmpty || rest4.contains '\n' then none
            else some (String.mk idChars, String.mk rest4)
          | _ => none
    else none
  | _ => none

/-- Embedding of the dispatch in `LLMNode.receive_message` (src/main.py
lines 579-661).  `meetingActive` and `emailActive` are the `active` flags
of the two dialog contexts; `calIntent`, `emailIntent` and
`analysisAction` are the oracle results the LLM-backed detectors would
return if consulted.  The returned list is the exact ordered sequence of
processing steps the method performs: the quick-command checks run first
(cli_user only), then the dialog-continuation checks, then intent
detection (cli_user only), and finally the history append and
conversational fallback. -/
def receiveMessageSteps (meetingActive emailActive : Bool)
    (calIntent : CalendarIntent) (emailIntent : EmailIntent) (analysisAction : String)
    (sender message : String) : List NodeStep :=
  if sender = "cli_user" then
    if strLower (pyStrip message) = "tasks" then [NodeStep.listTasks]
    else
      match planMatch message with
      | some pr => [NodeStep.planProject pr.1 pr.2]
      | none =>
        if meetingActive then [NodeStep.continueMeeting]
        else if emailActive then [NodeStep.continueEmail]
        else
          NodeStep.detectCalendarIntent ::
            (if calIntent.isCalendarCommand && calIntent.action = some "schedule_meeting" then
              (if calIntent.missingInfo ≠ [] then [NodeStep.startMeetingCreation]
               else [NodeStep.handleMeetingCreation])
            else if calIntent.isCalendarCommand && calIntent.action = some "cancel_meeting" then
              [NodeStep.handleMeetingCancellation]
            else if calIntent.isCalendarCommand && calIntent.action = some "list_meetings" then
              [NodeStep.handleListMeetings]
            else if calIntent.isCalendarCommand && calIntent.action = some "reschedule_meeting" then
              [NodeStep.handleMeetingRescheduling]
            else
              NodeStep.detectSendEmailIntent ::
                (if emailIntent.isSendEmail then [NodeStep.startEmailComposition]
                else
                  NodeStep.detectEmailAnalysis ::
                    (if analysisAction ≠ "none" then [NodeStep.processAdvancedEmailCommand]
                    else [NodeStep.appendHistory ("cli_user says: " ++ message),
                          NodeStep.llmFallback])))
  else
    if meetingActive then [NodeStep.continueMeeting]
    else if emailActive then [NodeStep.continueEmail]
    else [NodeStep.appendHistory (sender ++ " says: " ++ message)]

/-- Steps that call one of the LLM-backed intent detectors
(`_detect_calendar_intent`, `_detect_send_email_intent`,
`_analyze_email_command`). -/
def stepIsIntentDetection : NodeStep → Bool
  | NodeStep.detectCalendarIntent => true
  | NodeStep.detectSendEmailIntent => true
  | NodeStep.detectEmailAnalysis => true
  | _ => false

/-- Steps that invoke an action handler (scheduling, cancellation,
listing, rescheduling, email composition or sending, project planning,
advanced email processing) or start a new dialog for one. -/
def stepIsActionHandler : NodeStep → Bool
  | NodeStep.planProject _ _ => true
  | NodeStep.startMeetingCreation => true
  | NodeStep.handleMeetingCreation => true
  | NodeStep.handleMeetingCancellation => true
  | NodeStep.handleListMeetings => true
  | NodeStep.handleMeetingRescheduling => true
  | NodeStep.startEmailComposition => true
  | NodeStep.processAdvancedEmailCommand => true
  | _ => false

/-- The conversational LLM fallback of lines 658-661. -/
def stepIsFallback : NodeStep → Bool
  | NodeStep.llmFallback => true
  | _ => false

/-- Steps whose Python counterpart mutates a dialog context, the bus task
list, or a calendar (local or external).  `listTasks`, `appendHistory` and
the detector calls mutate none of these; `llmFallback` appends to the
conversation history only. -/
def stepMutatesBeyondHistory : NodeStep → Bool
  | NodeStep.planProject _ _ => true
  | NodeStep.continueMeeting => true
  | NodeStep.continueEmail => true
  | NodeStep.startMeetingCreation => true
  | NodeStep.handleMeetingCreation => true
  | NodeStep.handleMeetingCancellation => true
  | NodeStep.handleMeetingRescheduling => true
  | NodeStep.startEmailComposition => true
  | NodeStep.processAdvancedEmailCommand => true
  | _ => false

/-- Quick commands: the two cli_user commands checked before everything
else in `receive_message` (lines 580-595). -/
def isQuickCommand (sender message : String) : Bool :=
  sender = "cli_user" &&
    (strLower (pyStrip message) = "tasks" || (planMatch message).isSome)

/- ## Meeting-creation dialog (src/main.py lines 700-917) and reschedule
completion (lines 1795-1881)

The dialog context is the Python dict `self.meeting_context`; its
`collected_info` sub-dict maps field names to values that are strings when
written by `_continue_meeting_creation` and a list of strings when the
creation handler stores the extractor's participants on re-entry, so
values are modelled by `PyVal`. -/

/-- Python single-quote character, used when rebuilding the exact source
message strings. -/
def pyQuote : String :=
  String.mk [Char.ofNat 39]

/-- Value stored in a Python dict used by the dialog contexts. -/
inductive PyVal where
  | str (s : String)
  | strList (l : List String)
deriving DecidableEq, Repr

/-- Python `f"{v}"` of a stored value (`repr` rendering for lists). -/
def pyFormat : PyVal → String
  | PyVal.str s => s
  | PyVal.strList l => "[" ++ String.intercalate ", " (l.map (fun s => pyQuote ++ s ++ pyQuote)) ++ "]"

/-- Python `f"{d.get(k)}"`, where an absent key formats as `None`. -/
def pyFormatOpt : Option PyVal → String
  | some v => pyFormat v
  | none => "None"

/-- Dict write with Python semantics: overwrite in place, else append. -/
def dictSet (d : List (String × PyVal)) (k : String) (v : PyVal) : List (String × PyVal) :=
  if (d.lookup k).isSome then
    d.map (fun p => if p.1 = k then (k, v) else p)
  else d ++ [(k, v)]

/-- Embedding of `self.meeting_context`.  `initialMessage` is `none` when
the dict was created without an `initial_message` key, as the past-time
and parse-failure re-entry branches of `_handle_meeting_creation` do. -/
structure MeetingContext where
  active : Bool
  initialMessage : Option String
  missingInfo : List String
  collected : List (String × PyVal)
  isRescheduling : Bool
  targetEventId : Option String
deriving DecidableEq, Repr

/-- Oracle result of `_extract_meeting_details` after its own defaulting:
`title` is `""` when missing (Python falsy), `date`/`time` are `none` only
when the whole extraction failed and returned `{}`, and `duration` is the
integer the handler coerces (60 when unspecified). -/
structure MeetingData where
  title : String
  participants : List String
  date : Option String
  time : Option String
  duration : Nat
deriving DecidableEq, Repr

/-- Events emitted by the meeting-dialog functions, named after the Python
statement they stand for.  `updateCall` is the `events().update` call of
the rescheduling completion, `createCall` the `_create_calendar_meeting`
invocation of the creation handler, `notify` a `send_message` to a
registered attendee, and `keyErrorCrash` the `KeyError` raised when
`_construct_complete_meeting_message` reads the absent
`initial_message` key. -/
inductive MEv where
  | response (msg : String)
  | printLine (msg : String)
  | askInfo (field : String)
  | createCall (meetingId title : String) (participants : List String) (start finish : DT)
  | updateCall (start finish : DT)
  | notify (attendeeId : String)
  | proceedToCompletion
  | completeRescheduling
  | keyErrorCrash
deriving DecidableEq, Repr

/-- Embedding of `_ask_for_next_meeting_info` (lines 723-757) restricted to
its question-printing behaviour: with a nonempty queue it prints the
question for the head field; with an empty queue the real function instead
builds the composite message and calls the creation handler, which is what
`proceedToCompletion` stands for (that path is only reachable from a start
with an empty missing-field list and is not traversed by the call sites
embedded here, which all pass a nonempty queue). -/
def askForNextMeetingInfo (ctx : MeetingContext) : List MEv :=
  match ctx.missingInfo with
  | [] => [MEv.proceedToCompletion]
  | f :: _ => [MEv.askInfo f]

/-- Embedding of `_construct_complete_meeting_message` (lines 794-816);
`none` models the `KeyError` on a context without `initial_message`. -/
def constructCompleteMeetingMessage (ctx : MeetingContext) : Option String :=
  match ctx.initialMessage with
  | none => none
  | some initial =>
    some (initial ++ " " ++
      (match ctx.collected.lookup "title" with
        | some v => "Title: " ++ pyFormat v ++ ". "
        | none => "") ++
      (match ctx.collected.lookup "date" with
        | some v => "Date: " ++ pyFormat v ++ ". "
        | none => "") ++
      (match ctx.collected.lookup "time" with
        | some v => "Time: " ++ pyFormat v ++ ". "
        | none => "") ++
      (match ctx.collected.lookup "participants" with
        | some v => "Participants: " ++ pyFormat v ++ "."
        | none => ""))

/-- Fixed role vocabulary used to normalise participants (line 844). -/
def roleVocab : List String :=
  ["ceo", "marketing", "engineering", "design"]

/-- Context installed by the past-time and parse-failure branches of
`_handle_meeting_creation` (lines 871-879 and 889-897): active, collecting
exactly date then time, with the extractor's title and participants
preserved and no `initial_message` key. -/
def reenterContext (data : MeetingData) : MeetingContext :=
  { active := true
    initialMessage := none
    missingInfo := ["date", "time"]
    collected :=
      dictSet (dictSet [] "title" (PyVal.str data.title))
        "participants" (PyVal.strList data.participants)
    isRescheduling := false
    targetEventId := none }

/-- Embedding of `_handle_meeting_creation` (lines 818-917), with the
extraction already performed (the `data` argument is the oracle result of
`_extract_meeting_details` on the message).  Returns the context the
handler installs into `self.meeting_context` (if any) and the ordered
event trace. -/
def handleMeetingCreation (now : DT) (nodeId : String) (data : MeetingData) :
    Option MeetingContext × List MEv :=
  let missing :=
    (if data.title = "" then ["title"] else []) ++
      (if data.participants = [] then ["participants"] else [])
  if missing ≠ [] then
    (none, [MEv.printLine ("Cannot schedule meeting: missing " ++ String.intercalate ", " missing)])
  else
    let participants :=
      (data.participants.map (fun p => strLower (pyStrip p))).filter (fun p => p ∈ roleVocab)
    if participants = [] then
      (none, [MEv.printLine "Cannot schedule meeting: no valid participants"])
    else
      let participants := if nodeId ∈ participants then participants else participants ++ [nodeId]
      let meetingDate := data.date.getD (formatYmd now)
      let meetingTime := data.time.getD (formatHm (addMinutes now 60))
      match parseDateTime (meetingDate ++ " " ++ meetingTime) with
      | some start =>
        if dtLt start now then
          let ctx := reenterContext data
          (some ctx,
            MEv.response ("The meeting time " ++ meetingDate ++ " at " ++ meetingTime ++
                " is in the past. Please provide a future date and time.") ::
              askForNextMeetingInfo ctx)
        else
          let finish := addMinutes start data.duration
          (none,
            [MEv.createCall ("meeting_" ++ toString (dtAbsMin now * 60)) data.title
                participants start finish,
              MEv.printLine ("Meeting " ++ pyQuote ++ data.title ++ pyQuote ++ " scheduled for " ++
                meetingDate ++ " at " ++ meetingTime ++ " with " ++
                String.intercalate ", " participants)])
      | none =>
        let ctx := reenterContext data
        (some ctx,
          MEv.response ("I couldn" ++ pyQuote ++ "t understand the date/time format. Please provide the date in YYYY-MM-DD format and time in HH:MM format.") ::
            askForNextMeetingInfo ctx)

/-- Embedding of `_continue_meeting_creation` (lines 759-792).  The reply
is recorded under the head of the missing-field queue; when the queue
empties the topic-specific completion runs, and then — unconditionally —
line 791 sets `active = False` on whatever dict `self.meeting_context`
then refers to, including a context freshly installed by the creation
handler, and line 792 prints the success message. -/
def continueMeetingCreation (now : DT) (extract : String → MeetingData) (nodeId : String)
    (ctx : MeetingContext) (message : String) : MeetingContext × List MEv :=
  match ctx.missingInfo with
  | [] => ({ ctx with active := false }, [])
  | current :: restMissing =>
    let ctx1 := { ctx with
      missingInfo := restMissing
      collected := dictSet ctx.collected current (PyVal.str message) }
    if restMissing ≠ [] then
      (ctx1, askForNextMeetingInfo ctx1)
    else
      if ctx1.isRescheduling ∧ ctx1.targetEventId.isSome then
        ({ ctx1 with active := false },
          [MEv.completeRescheduling,
            MEv.response "Meeting rescheduled successfully with all required information."])
      else
        match constructCompleteMeetingMessage ctx1 with
        | none => (ctx1, [MEv.keyErrorCrash])
        | some combined =>
          let handled := handleMeetingCreation now nodeId (extract combined)
          let ctxAfter := handled.1.getD ctx1
          ({ ctxAfter with active := false },
            handled.2 ++
              [MEv.response ("Meeting " ++
                (if ctxAfter.isRescheduling then "rescheduled" else "scheduled") ++
                " successfully with all required information.")])

/-- Google calendar event as the source consumes it: `start`/`finish` are
the parsed `start.dateTime` / `end.dateTime` values and `attendees` the
attendee email addresses. -/
structure CalEvent where
  id : String
  summary : String
  start : DT
  finish : DT
  attendees : List String
deriving DecidableEq, Repr

/-- Embedding of `_complete_meeting_rescheduling` (src/main.py lines
1795-1881).  `getEvent` is the oracle result of the `events().get` call
(`none` models a raised API error) and `updateOk` the outcome of
`events().update`.  The source function never writes
`self.meeting_context`, so no context is returned: the trace alone shows
what the completion step does.  On a still-past parsed time it prints the
adjustment notice and moves the start to tomorrow at the same clock time
(lines 1822-1828); local-calendar rewrites of matching records are
summarised by the `notify` events to registered attendees. -/
def completeMeetingRescheduling (now : DT) (registered : List String)
    (ctx : MeetingContext) (getEvent : Option CalEvent) (updateOk : Bool) : List MEv :=
  if ¬ ctx.active then []
  else
    let newDate := pyFormatOpt (ctx.collected.lookup "date")
    let newTime := pyFormatOpt (ctx.collected.lookup "time")
    match getEvent with
    | none =>
      [MEv.printLine "Error completing meeting rescheduling",
        MEv.response "There was an error rescheduling the meeting. Please try again."]
    | some event =>
      match parseDateTime (newDate ++ " " ++ newTime) with
      | none =>
        [MEv.printLine "Error completing meeting rescheduling",
          MEv.response "There was an error rescheduling the meeting. Please try again."]
      | some parsed =>
        let adjusted := dtLt parsed now
        let newStart :=
          if adjusted then
            let tomorrow := nextDay now
            DT.mk tomorrow.year tomorrow.month tomorrow.day parsed.hour parsed.minute
          else parsed
        let dur := dtAbsMin event.finish - dtAbsMin event.start
        let newEnd := addMinutes newStart dur
        (if adjusted then
          [MEv.printLine "The provided time is still in the past. Adjusting to tomorrow at the same time."]
        else []) ++
          (if updateOk then
            MEv.updateCall newStart newEnd ::
              MEv.response ("Meeting " ++ pyQuote ++ event.summary ++ pyQuote ++
                " has been rescheduled.") ::
              ((event.attendees.map localPart).filter (fun a => a ∈ registered)).map MEv.notify
          else
            [MEv.updateCall newStart newEnd,
              MEv.printLine "Error completing meeting rescheduling",
              MEv.response "There was an error rescheduling the meeting. Please try again."])

/- ## Meeting cancellation (src/main.py lines 1610-1725) -/

/-- Oracle result of the cancellation-details extraction (lines 1631-1648):
`title` and `date` are `none` when the JSON field is null or absent. -/
structure CancelData where
  title : Option String
  withParticipants : List String
  date : Option String
deriving DecidableEq, Repr

/-- Calendar event as the cancellation handler reads it: `startRaw` is the
raw `start.dateTime` (or `start.date`) string the date filter is matched
against with the substring operator. -/
structure CancelEvent where
  id : String
  summary : String
  attendees : List String
  startRaw : String
deriving DecidableEq, Repr

/-- Python truthiness of an optional string (`if title_filter:`). -/
def truthy : Option String → Bool
  | none => false
  | some s => !(s == "")

/-- Embedding of the per-event filter of `_handle_meeting_cancellation`
(lines 1673-1691): `should_cancel` starts true and each supplied filter
may clear it.  `participantsFilter` is already lowercased by the caller,
as in line 1667. -/
def shouldCancel (titleFilter : Option String) (participantsFilter : List String)
    (dateFilter : Option String) (ev : CancelEvent) : Bool :=
  let sc := true
  let sc :=
    if truthy titleFilter &&
        !(strContains (strLower ev.summary) (strLower (titleFilter.getD ""))) then
      false
    else sc
  let sc :=
    if !(participantsFilter.isEmpty) &&
        !(participantsFilter.any
          (fun p => (ev.attendees.map (fun a => strLower (localPart a))).contains p)) then
      false
    else sc
  let sc :=
    if truthy dateFilter && !(ev.startRaw == "") &&
        !(strContains ev.startRaw (dateFilter.getD "")) then
      false
    else sc
  sc

/-- Filter application including the lowercasing of the participants
filter performed once before the loop (line 1667). -/
def cancellationMatches (d : CancelData) (ev : CancelEvent) : Bool :=
  shouldCancel d.title (d.withParticipants.map strLower) d.date ev

/-- Effect of cancelling one or zero events, named after the Python
statement: the external `events().delete` call, the removal of local
records by event id, and the notification to a registered attendee. -/
inductive CancelEv where
  | deleteCall (eventId : String)
  | removeLocal (eventId : String)
  | notify (attendeeId eventId : String)
deriving DecidableEq, Repr

/-- Embedding of the cancellation loop of `_handle_meeting_cancellation`
(lines 1673-1717): each matching event is deleted externally, removed from
the local records by event id, and each of its registered attendees is
notified; non-matching events produce no effect. -/
def cancellationEffects (d : CancelData) (registered : List String) :
    List CancelEvent → List CancelEv
  | [] => []
  | ev :: rest =>
    (if cancellationMatches d ev then
      CancelEv.deleteCall ev.id :: CancelEv.removeLocal ev.id ::
        ((ev.attendees.map localPart).filter (fun a => a ∈ registered)).map
          (fun a => CancelEv.notify a ev.id)
    else []) ++ cancellationEffects d registered rest

/-- Final report of the cancellation handler (lines 1719-1722). -/
def cancellationReport (d : CancelData) (events : List CancelEvent) : String :=
  if (events.filter (cancellationMatches d)).length = 0 then
    "No meetings found matching the cancellation criteria"
  else
    "Cancelled " ++ toString (events.filter (cancellationMatches d)).length ++ " meeting(s)"

/- ## Email composition dialog (src/main.py lines 2402-2703) -/

/-- Positive keyword list of `_is_confirmation_positive` (lines 2664-2669). -/
def positiveIndicators : List String :=
  ["yes", "yeah", "yep", "yup", "sure", "ok", "okay", "fine",
    "send", "send it", "send email", "send the email",
    "confirm", "confirmed", "confirmation", "approve", "approved",
    "go ahead", "proceed", "do it", "looks good"]

/-- Negative keyword list of `_is_confirmation_positive` (lines 2670-2673). -/
def negativeIndicators : List String :=
  ["no", "nope", "don" ++ pyQuote ++ "t", "do not", "cancel", "stop", "abort",
    "don" ++ pyQuote ++ "t send", "do not send", "wait", "hold on", "nevermind"]

/-- Embedding of `_is_confirmation_positive` (lines 2662-2682): the
lowercased, stripped reply is checked against the negative list first; a
positive indicator only counts when no negative indicator occurs. -/
def isConfirmationPositive (message : String) : Bool :=
  let m := pyStrip (strLower message)
  if negativeIndicators.any (fun i => strContains m i) then false
  else positiveIndicators.any (fun i => strContains m i)

/-- The `collected_info` dict of the email context (fixed three keys,
created by `_start_email_composition`). -/
structure EmailCollected where
  recipient : String
  subject : String
  body : String
deriving DecidableEq, Repr

/-- Embedding of `self.email_context`. -/
structure EmailContext where
  active : Bool
  initialMessage : String
  missingInfo : List String
  collected : EmailCollected
  state : String
deriving DecidableEq, Repr

/-- Events of the email dialog: `sendCall` is the `send_email` collaborator
invocation, `showPreview` the CONFIRMING preview (with the displayed
subject already defaulted to `(No subject)` when empty). -/
inductive EmailEv where
  | response (msg : String)
  | askInfo (field : String)
  | showPreview (recipient subject body : String)
  | sendCall (recipient subject body : String)
deriving DecidableEq, Repr

/-- Embedding of `_show_email_preview` (lines 2684-2703): transition to the
`confirming` state and display the preview. -/
def showEmailPreview (ctx : EmailContext) : EmailContext × List EmailEv :=
  ({ ctx with state := "confirming" },
    [EmailEv.showPreview ctx.collected.recipient
      (if ctx.collected.subject = "" then "(No subject)" else ctx.collected.subject)
      ctx.collected.body])

/-- Subject defaulting of `_send_email_after_confirmation` (lines
2414-2421): an empty subject becomes the first body line when its length
lies strictly between 5 and 80 characters, else a generic subject naming
the sender. -/
def resolveEmailSubject (nodeId subject body : String) : String :=
  if subject = "" then
    let firstLine := String.mk ((splitCh '\n' body.data).headD [])
    if 5 < firstLine.data.length ∧ firstLine.data.length < 80 then firstLine
    else "Message from " ++ nodeId
  else subject

/-- Recipient resolution of `_send_email_after_confirmation` (lines
2423-2430): a recipient without `@` is mapped through the role vocabulary
or slugified to a synthetic address. -/
def resolveEmailRecipient (recipient : String) : String :=
  if ¬ recipient.data.contains '@' then
    if strLower recipient ∈ roleVocab then strLower recipient ++ "@example.com"
    else String.mk ((recipient.data.filter (fun c => ¬ c = ' ')).map Char.toLower) ++
      "@example.com"
  else recipient

/-- Embedding of `_send_email_after_confirmation` (lines 2402-2441):
validate recipient and body, default the subject, resolve the recipient,
invoke the send collaborator (success given by the `sendOk` oracle), and
deactivate the context. -/
def sendEmailAfterConfirmation (nodeId : String) (sendOk : Bool) (ctx : EmailContext) :
    EmailContext × List EmailEv :=
  let recipient := ctx.collected.recipient
  let subject := ctx.collected.subject
  let body := ctx.collected.body
  if recipient = "" ∨ body = "" then
    ({ ctx with active := false },
      [EmailEv.response "Cannot send email - missing recipient or body content."])
  else
    let subject := resolveEmailSubject nodeId subject body
    let recipient := resolveEmailRecipient recipient
    ({ ctx with active := false },
      EmailEv.sendCall recipient subject body ::
        (if sendOk then [EmailEv.response ("Email sent successfully to " ++ recipient ++ "!")]
        else [EmailEv.response "There was an error sending your email. Please try again later."]))

/-- Embedding of `_continue_email_composition` (lines 2541-2608).
`parseSB` is the oracle for `_parse_subject_and_body` (its regex paths and
its LLM fallback), returning the extracted subject and body.  Replies in
the CONFIRMING state are classified by `isConfirmationPositive`; a
positive reply triggers `_send_email_after_confirmation`, anything else
deactivates the dialog with a cancellation notice and never invokes the
send collaborator.  Field replies in the collecting state are recorded
under the head of the missing-field queue, with the subject reply
optionally split into subject and body when it carries the `body:` /
`message:` / `content:` markers. -/
def continueEmailComposition (parseSB : String → String × String) (nodeId : String)
    (sendOk : Bool) (ctx : EmailContext) (message : String) : EmailContext × List EmailEv :=
  if ¬ ctx.active then (ctx, [])
  else if ctx.missingInfo = [] then
    if ctx.state = "confirming" then
      if isConfirmationPositive message then sendEmailAfterConfirmation nodeId sendOk ctx
      else
        ({ ctx with active := false },
          [EmailEv.response "Email sending cancelled. You can start over or modify your request."])
    else (ctx, [])
  else if ctx.state = "collecting_info" then
    match ctx.missingInfo with
    | [] => (ctx, [])
    | current :: restMissing =>
      let lowered := strLower message
      let ctx1 : EmailContext :=
        if current = "subject" then
          if strContains lowered "body:" || strContains lowered "message:" ||
              strContains lowered "content:" then
            let parsed := parseSB message
            let withSubject :=
              { ctx with missingInfo := restMissing
                         collected := { ctx.collected with subject := parsed.1 } }
            if parsed.2 ≠ "" ∧ "body" ∈ restMissing then
              { withSubject with
                missingInfo := restMissing.erase "body"
                collected := { withSubject.collected with body := parsed.2 } }
            else withSubject
          else
            { ctx with missingInfo := restMissing
                       collected := { ctx.collected with subject := message } }
        else if current = "body" then
          { ctx with missingInfo := restMissing
                     collected := { ctx.collected with body := message } }
        else if current = "recipient" then
          { ctx with missingInfo := restMissing
                     collected := { ctx.collected with recipient := message } }
        else
          { ctx with missingInfo := restMissing }
      if ctx1.missingInfo = [] then showEmailPreview ctx1
      else (ctx1, [EmailEv.askInfo (ctx1.missingInfo.headD "")])
  else if ctx.state = "confirming" then
    if isConfirmationPositive message then sendEmailAfterConfirmation nodeId sendOk ctx
    else
      ({ ctx with active := false },
        [EmailEv.response "Email sending cancelled. You can start over or modify your request."])
  else (ctx, [])

/- ## Calendar meeting creation and the local fallback (src/main.py lines
529-555 and 1727-1793) -/

/-- Local meeting record (`self.calendar` entries): `eventId` is `none`
for fallback records, which carry no `event_id` key. -/
structure MeetingRec where
  projectId : String
  meetingInfo : String
  eventId : Option String
deriving DecidableEq, Repr

/-- Events of `_create_calendar_meeting` / `_fallback_schedule_meeting`:
`insertCall` is the `events().insert` attempt and `busMessage` a
`network.send_message` invocation; `printLine` covers the console
diagnostics, including the fallback's `Notified ...` lines, which are
prints and not bus messages. -/
inductive SchedEv where
  | printLine (msg : String)
  | insertCall
  | busMessage (sender recipient content : String)
deriving DecidableEq, Repr

/-- Calendar-map update: append one record to one node's local calendar. -/
def calAppend (cals : String → List MeetingRec) (n : String) (r : MeetingRec) :
    String → List MeetingRec :=
  fun k => if k = n then cals k ++ [r] else cals k

/-- The local-only record written by `_fallback_schedule_meeting` (lines
540-544): the meeting text names the project and tomorrow, and there is no
`event_id` key. -/
def fallbackRecord (now : DT) (projectId : String) : MeetingRec :=
  { projectId := projectId
    meetingInfo := "Meeting for project " ++ pyQuote ++ projectId ++ pyQuote ++
      " scheduled for " ++ strOfDT (nextDay now)
    eventId := none }

/-- One iteration of the participant loop of `_fallback_schedule_meeting`
(lines 549-555): a registered participant gets the record appended to its
calendar and a `Notified` console line; nothing else happens, and in
particular no bus message is sent. -/
def fallbackStep (registered : List String) (projectId : String) (r : MeetingRec)
    (acc : (String → List MeetingRec) × List SchedEv) (p : String) :
    (String → List MeetingRec) × List SchedEv :=
  if p ∈ registered then
    (calAppend acc.1 p r,
      acc.2 ++ [SchedEv.printLine ("Notified " ++ p ++ " about meeting for project " ++
        pyQuote ++ projectId ++ pyQuote ++ ".")])
  else acc

/-- Embedding of `_fallback_schedule_meeting` (lines 529-555): a
local-only record (no `event_id`) is appended to the creator's calendar
and to the calendar of every registered participant (including the
creator again if listed), a `Notified` line is printed per registered
participant, and no bus message is sent. -/
def fallbackScheduleMeeting (now : DT) (nodeId : String) (registered : List String)
    (projectId : String) (participants : List String)
    (cals : String → List MeetingRec) : (String → List MeetingRec) × List SchedEv :=
  let r := fallbackRecord now projectId
  participants.foldl (fallbackStep registered projectId r)
    (calAppend cals nodeId r,
      [SchedEv.printLine ("Scheduled local meeting: " ++ r.meetingInfo)])

/-- Embedding of `_create_calendar_meeting` (lines 1727-1793).
`svcAvailable` models `self.calendar_service` being non-None and
`insertResult` the oracle outcome of `events().insert` (`none` models a
raised API error).  When the service is unavailable or the insert fails,
the handler falls back to `_fallback_schedule_meeting`; on success it
records the event for the creator and every other registered participant
and notifies the latter over the bus. -/
def createCalendarMeeting (now : DT) (nodeId : String) (registered : List String)
    (svcAvailable : Bool) (insertResult : Option String)
    (meetingId title : String) (participants : List String) (start : DT)
    (cals : String → List MeetingRec) : (String → List MeetingRec) × List SchedEv :=
  if ¬ svcAvailable then
    let fb := fallbackScheduleMeeting now nodeId registered meetingId participants cals
    (fb.1, SchedEv.printLine "Calendar service not available, using local scheduling" :: fb.2)
  else
    match insertResult with
    | some evId =>
      let r : MeetingRec := { projectId := meetingId, meetingInfo := title, eventId := some evId }
      participants.foldl
        (fun acc p =>
          if p ≠ nodeId ∧ p ∈ registered then
            (calAppend acc.1 p r,
              acc.2 ++ [SchedEv.busMessage nodeId p ("New meeting: " ++ pyQuote ++ title ++
                pyQuote ++ " scheduled by " ++ nodeId ++ " for " ++ formatYmd start ++
                " at " ++ formatHm start)])
          else acc)
        (calAppend cals nodeId r,
          [SchedEv.insertCall,
            SchedEv.printLine ("Meeting " ++ pyQuote ++ title ++ pyQuote ++ " scheduled for " ++
              formatYmd start ++ " at " ++ formatHm start ++ " with " ++
              String.intercalate ", " participants)])
    | none =>
      let fb := fallbackScheduleMeeting now nodeId registered meetingId participants cals
      (fb.1, SchedEv.insertCall ::
        SchedEv.printLine "Failed to create calendar event" :: fb.2)

/- ## Trace classifiers and general lemmas used by the theorems below -/

/-- Log events of the bus trace. -/
def isLogEv : BusEv → Bool
  | BusEv.log _ _ _ => true
  | _ => false

/-- Synchronous `receive_message` invocations in the bus trace. -/
def isRecvEv : BusEv → Bool
  | BusEv.recv _ _ _ => true
  | _ => false

/-- Unknown-recipient diagnostics in the bus trace. -/
def isDiagEv : BusEv → Bool
  | BusEv.diag _ => true
  | _ => false

/-- Question events of the meeting dialog trace. -/
def isAskInfo : MEv → Bool
  | MEv.askInfo _ => true
  | _ => false

/-- External calendar-creation invocations in the meeting trace. -/
def isCreateCall : MEv → Bool
  | MEv.createCall _ _ _ _ _ => true
  | _ => false

/-- External calendar-update invocations in the meeting trace. -/
def isUpdateCall : MEv → Bool
  | MEv.updateCall _ _ => true
  | _ => false

/-- Bus messages in the scheduling trace. -/
def isBusMessage : SchedEv → Bool
  | SchedEv.busMessage _ _ _ => true
  | _ => false

/-- Send-collaborator invocations in the email trace. -/
def isSendCall : EmailEv → Bool
  | EmailEv.sendCall _ _ _ => true
  | _ => false

theorem charPre_append_self (n q : List Char) : charPre n (n ++ q) = true := by
  induction n with
  | nil => rfl
  | cons c rest ih => simp [charPre, ih]

theorem charSub_cons_of (n rest : List Char) (c : Char) (h : charSub n rest = true) :
    charSub n (c :: rest) = true := by
  rw [charSub, h, Bool.or_true]

theorem charSub_self_append (n q : List Char) : charSub n (n ++ q) = true := by
  have hpre := charPre_append_self n q
  cases hnq : n ++ q with
  | nil =>
    rw [hnq] at hpre
    simp only [charSub]
    exact hpre
  | cons c t =>
    rw [hnq] at hpre
    rw [charSub, hpre, Bool.true_or]

theorem charSub_append_self (p n q : List Char) : charSub n (p ++ (n ++ q)) = true := by
  induction p with
  | nil => simpa using charSub_self_append n q
  | cons c rest ih => exact charSub_cons_of _ _ _ ih

theorem strContains_middle (s p x q : String) (h : s = p ++ x ++ q) :
    strContains s x = true := by
  subst h
  unfold strContains
  have : (p ++ x ++ q).data = p.data ++ (x.data ++ q.data) := by
    simp [String.data_append]
  rw [this]
  exact charSub_append_self p.data x.data q.data

/- ## Claim theorems -/

/-- C4 (bus delivery): for every sender A, recipient B and content C,
`send(A, B, C)` first produces exactly one log entry; if B is registered
the trace then holds exactly one `receive(C, A)` invocation on B (also
when A equals B) and no diagnostic; if B is unregistered there are zero
receive invocations and exactly one diagnostic whose text names B, and the
call is a total function of its inputs (it never raises). -/
theorem sendMessage_delivery (nodes : List String) (sender recipient content : String) :
    (sendMessage nodes sender recipient content).head? =
      some (BusEv.log sender recipient content) ∧
    (sendMessage nodes sender recipient content).filter isLogEv =
      [BusEv.log sender recipient content] ∧
    (recipient ∈ nodes →
      (sendMessage nodes sender recipient content).filter isRecvEv =
        [BusEv.recv recipient content sender] ∧
      (sendMessage nodes sender recipient content).filter isDiagEv = []) ∧
    (recipient ∉ nodes →
      (sendMessage nodes sender recipient content).filter isRecvEv = [] ∧
      ∃ m, (sendMessage nodes sender recipient content).filter isDiagEv = [BusEv.diag m] ∧
        strContains m recipient = true) := by
  by_cases h : recipient ∈ nodes
  · refine ⟨?_, ?_, fun _ => ⟨?_, ?_⟩, fun hn => absurd h hn⟩ <;>
      simp [sendMessage, h, isLogEv, isRecvEv, isDiagEv, List.filter]
  · refine ⟨?_, ?_, fun hn => absurd hn h, fun _ => ⟨?_, ?_⟩⟩
    · simp [sendMessage, h]
    · simp [sendMessage, h, isLogEv, isRecvEv, isDiagEv, List.filter]
    · simp [sendMessage, h, isLogEv, isRecvEv, isDiagEv, List.filter]
    · refine ⟨"Node " ++ recipient ++ " not found in the network.", ?_,
        strContains_middle _ "Node " recipient " not found in the network." rfl⟩
      simp [sendMessage, h, isLogEv, isRecvEv, isDiagEv, List.filter]

/-- Witness for C4: with only "ceo" registered, a self-send from "ceo"
yields exactly one receive call, and a send to the unregistered "bob"
yields none. -/
theorem sendMessage_delivery_witness :
    (sendMessage ["ceo"] "ceo" "ceo" "hello").filter isRecvEv =
      [BusEv.recv "ceo" "hello" "ceo"] ∧
    (sendMessage ["ceo"] "ceo" "bob" "hello").filter isRecvEv = [] :=
  ⟨((sendMessage_delivery ["ceo"] "ceo" "ceo" "hello").2.2.1 (by decide)).1,
    ((sendMessage_delivery ["ceo"] "ceo" "bob" "hello").2.2.2 (by decide)).1⟩

/-- C5 (task notification): `add_task(T)` appends T to the bus task list
exactly once; when `T.assigned_to` is registered at that moment the trace
holds exactly one delivered bus message, from the reserved sender
`"system"` to the assignee, whose text contains the task title, the
formatted due date and the priority; when the assignee is unregistered no
message is produced but T is still recorded; and `tasks_for(n)` returns
exactly the tasks whose `assigned_to` equals `n`, in insertion order (a
sublist of the task list). -/
theorem addTask_notification (net : BusState) (t : TaskRec) (n : String) :
    (addTask net t).1.tasks = net.tasks ++ [t] ∧
    (t.assignedTo ∈ net.nodes →
      (addTask net t).2.filter isRecvEv =
        [BusEv.recv t.assignedTo (taskNotificationMessage t) "system"] ∧
      strContains (taskNotificationMessage t) t.title = true ∧
      strContains (taskNotificationMessage t) (formatYmd t.due) = true ∧
      strContains (taskNotificationMessage t) t.priority = true) ∧
    (t.assignedTo ∉ net.nodes → (addTask net t).2 = []) ∧
    (∀ t2, t2 ∈ getTasksForNode net n ↔ t2 ∈ net.tasks ∧ t2.assignedTo = n) ∧
    List.Sublist (getTasksForNode net n) net.tasks := by
  refine ⟨?_, fun h => ⟨?_, ?_, ?_, ?_⟩, fun h => ?_, fun t2 => ?_, ?_⟩
  · by_cases h : t.assignedTo ∈ net.nodes <;> simp [addTask, h]
  · simp [addTask, h, sendMessage, isRecvEv, List.filter]
  · exact strContains_middle _ "New task assigned: " t.title
      (". Due: " ++ formatYmd t.due ++ ". Priority: " ++ t.priority ++ ".")
      (by simp [taskNotificationMessage, String.append_assoc])
  · exact strContains_middle _ ("New task assigned: " ++ t.title ++ ". Due: ")
      (formatYmd t.due) (". Priority: " ++ t.priority ++ ".")
      (by simp [taskNotificationMessage, String.append_assoc])
  · exact strContains_middle _
      ("New task assigned: " ++ t.title ++ ". Due: " ++ formatYmd t.due ++ ". Priority: ")
      t.priority "." (by simp [taskNotificationMessage, String.append_assoc])
  · simp [addTask, h]
  · simp [getTasksForNode, List.mem_filter]
  · exact List.filter_sublist net.tasks

/-- Witness for C5: scenario A of the spec with "marketing" registered —
one delivered notification containing "Draft budget" and "high" — and an
unregistered assignee case producing no message. -/
theorem addTask_notification_witness :
    (addTask ⟨["ceo", "marketing"], []⟩
        (mkTask "Draft budget" "d" ⟨2031, 5, 1, 9, 0⟩ "marketing" "high" "p1")).2.filter
        isRecvEv =
      [BusEv.recv "marketing"
        (taskNotificationMessage
          (mkTask "Draft budget" "d" ⟨2031, 5, 1, 9, 0⟩ "marketing" "high" "p1")) "system"] ∧
    (addTask ⟨["ceo"], []⟩
        (mkTask "Draft budget" "d" ⟨2031, 5, 1, 9, 0⟩ "marketing" "high" "p1")).2 = [] :=
  ⟨((addTask_notification ⟨["ceo", "marketing"], []⟩
      (mkTask "Draft budget" "d" ⟨2031, 5, 1, 9, 0⟩ "marketing" "high" "p1") "marketing").2.1
      (by decide)).1,
    (addTask_notification ⟨["ceo"], []⟩
      (mkTask "Draft budget" "d" ⟨2031, 5, 1, 9, 0⟩ "marketing" "high" "p1") "marketing").2.2.1
      (by decide)⟩

/-- C9 counterexample: two distinct `Task` objects of the monolithic
implementation that share title, assignee and due date (differing in their
description) receive the same id, because `Task.__init__` computes the id
as `task_` plus the hash of title + assigned_to + str(due_date) only. -/
theorem task_id_counterexample :
    mkTask "Draft budget" "first draft" ⟨2031, 5, 1, 9, 0⟩ "marketing" "high" "p1" ≠
      mkTask "Draft budget" "second draft" ⟨2031, 5, 1, 9, 0⟩ "marketing" "high" "p1" ∧
    (mkTask "Draft budget" "first draft" ⟨2031, 5, 1, 9, 0⟩ "marketing" "high" "p1").id =
      (mkTask "Draft budget" "second draft" ⟨2031, 5, 1, 9, 0⟩ "marketing" "high" "p1").id :=
  ⟨by decide, rfl⟩

/-- C9 amended: in the monolithic `Task`, the id is a deterministic
function of the title, the assignee and the due date alone, so any two
tasks agreeing on those three fields — however much the description,
priority or project differ — receive the identical id (and the id, set
only at construction, never changes thereafter). -/
theorem task_id_amended (title d1 d2 : String) (due : DT)
    (assignee pr1 pr2 proj1 proj2 : String) :
    (mkTask title d1 due assignee pr1 proj1).id =
      (mkTask title d2 due assignee pr2 proj2).id := rfl

/-- C1 counterexample: with the meeting dialog active, the cli_user
message "plan p1 = Launch the product" is not consumed by the dialog
continuation — it is handled by the quick-command check, which runs before
the dialog-continuation check and invokes the project-planning action
handler. -/
theorem dialog_exclusivity_counterexample :
    receiveMessageSteps true false ⟨false, none, []⟩ ⟨false, "", "", "", []⟩ "none"
        "cli_user" "plan p1 = Launch the product" =
      [NodeStep.planProject "p1" "Launch the product"] ∧
    NodeStep.continueMeeting ∉
      receiveMessageSteps true false ⟨false, none, []⟩ ⟨false, "", "", "", []⟩ "none"
        "cli_user" "plan p1 = Launch the product" ∧
    stepIsActionHandler (NodeStep.planProject "p1" "Launch the product") = true ∧
    strLower (pyStrip "tasks") = "tasks" ∧
    receiveMessageSteps true false ⟨false, none, []⟩ ⟨false, "", "", "", []⟩ "none"
        "cli_user" "tasks" = [NodeStep.listTasks] := by
  refine ⟨by decide, by decide, rfl, by decide, by decide⟩

/-- C1 amended: once a dialog context is active for a node, every inbound
message — regardless of sender — except a cli_user quick command ("tasks"
or "plan <id> = <objective>") is consumed by that context's continuation
step, and no such message reaches intent detection, an action handler, or
the conversational fallback; the quick commands are exempt because their
check precedes the dialog-continuation check. -/
theorem dialog_exclusivity_amended (meetingActive emailActive : Bool)
    (calIntent : CalendarIntent) (emailIntent : EmailIntent)
    (analysisAction sender message : String)
    (hact : meetingActive = true ∨ emailActive = true)
    (hq : isQuickCommand sender message = false) :
    receiveMessageSteps meetingActive emailActive calIntent emailIntent analysisAction
        sender message =
      (if meetingActive = true then [NodeStep.continueMeeting]
       else [NodeStep.continueEmail]) ∧
    ∀ s ∈ receiveMessageSteps meetingActive emailActive calIntent emailIntent
        analysisAction sender message,
      stepIsIntentDetection s = false ∧ stepIsActionHandler s = false ∧
        stepIsFallback s = false := by
  have heq : receiveMessageSteps meetingActive emailActive calIntent emailIntent
      analysisAction sender message =
      (if meetingActive = true then [NodeStep.continueMeeting]
       else [NodeStep.continueEmail]) := by
    by_cases hs : sender = "cli_user"
    · have ht : ¬ strLower (pyStrip message) = "tasks" := by
        intro hcontra
        simp [isQuickCommand, hs, hcontra] at hq
      have hp : planMatch message = none := by
        cases hpm : planMatch message with
        | none => rfl
        | some pr => simp [isQuickCommand, hs, hpm] at hq
      cases meetingActive with
      | true => simp [receiveMessageSteps, hs, ht, hp]
      | false =>
        cases emailActive with
        | true => simp [receiveMessageSteps, hs, ht, hp]
        | false => simp at hact
    · cases meetingActive with
      | true => simp [receiveMessageSteps, hs]
      | false =>
        cases emailActive with
        | true => simp [receiveMessageSteps, hs]
        | false => simp at hact
  refine ⟨heq, ?_⟩
  intro s hsm
  rw [heq] at hsm
  by_cases hm : meetingActive = true
  · rw [if_pos hm] at hsm
    simp at hsm
    subst hsm
    exact ⟨rfl, rfl, rfl⟩
  · rw [if_neg hm] at hsm
    simp at hsm
    subst hsm
    exact ⟨rfl, rfl, rfl⟩

/-- Witness for C1 amended: with the meeting dialog active, a peer message
from "marketing" is consumed by the meeting continuation. -/
theorem dialog_exclusivity_amended_witness :
    receiveMessageSteps true false ⟨false, none, []⟩ ⟨false, "", "", "", []⟩ "none"
        "marketing" "status update" = [NodeStep.continueMeeting] := by
  have h := (dialog_exclusivity_amended true false ⟨false, none, []⟩ ⟨false, "", "", "", []⟩
    "none" "marketing" "status update" (Or.inl rfl) (by decide)).1
  simpa using h

/-- C10 (frame effect): a message from a sender other than "cli_user"
arriving while no dialog context is active performs no intent detection,
invokes no action handler and produces no LLM reply; the dispatch reduces
to the single conversation-history append of that message, which touches
neither the dialog contexts, nor the bus task list, nor any calendar. -/
theorem noncli_frame (calIntent : CalendarIntent) (emailIntent : EmailIntent)
    (analysisAction sender message : String) (hs : sender ≠ "cli_user") :
    receiveMessageSteps false false calIntent emailIntent analysisAction sender message =
      [NodeStep.appendHistory (sender ++ " says: " ++ message)] ∧
    ∀ s ∈ receiveMessageSteps false false calIntent emailIntent analysisAction
        sender message,
      stepIsIntentDetection s = false ∧ stepIsActionHandler s = false ∧
        stepIsFallback s = false ∧ stepMutatesBeyondHistory s = false := by
  have heq : receiveMessageSteps false false calIntent emailIntent analysisAction
      sender message = [NodeStep.appendHistory (sender ++ " says: " ++ message)] := by
    simp [receiveMessageSteps, hs]
  refine ⟨heq, ?_⟩
  intro s hsm
  rw [heq] at hsm
  simp at hsm
  subst hsm
  exact ⟨rfl, rfl, rfl, rfl⟩

/-- Witness for C10: a peer message from "marketing" with no active dialog
reduces to one history append. -/
theorem noncli_frame_witness :
    receiveMessageSteps false false ⟨false, none, []⟩ ⟨false, "", "", "", []⟩ "none"
        "marketing" "hello" =
      [NodeStep.appendHistory ("marketing" ++ " says: " ++ "hello")] :=
  (noncli_frame ⟨false, none, []⟩ ⟨false, "", "", "", []⟩ "none" "marketing" "hello"
    (by decide)).1

/-- Concrete meeting-creation dialog context for the past-time scenario:
started for missing date and time, with the date already collected as the
past day "2025-01-01" and the time reply about to arrive. -/
def cbCtx : MeetingContext :=
  { active := true
    initialMessage := some "schedule a budget meeting"
    missingInfo := ["time"]
    collected := [("title", PyVal.str "Budget"), ("participants", PyVal.str "marketing"),
      ("date", PyVal.str "2025-01-01")]
    isRescheduling := false
    targetEventId := none }

/-- Extractor oracle for the composite message of the scenario: title
"Budget", participant "marketing", and the collected past date and time. -/
def cbData : MeetingData :=
  { title := "Budget", participants := ["marketing"], date := some "2025-01-01",
    time := some "08:00", duration := 60 }

/-- The current time of the scenario, after the collected date. -/
def cbNow : DT := ⟨2025, 6, 15, 12, 0⟩

/-- C3 (past-time rejection, dialog path): at the concrete past-time
input, the creation handler performs no calendar-create call, re-enters
collection with missing exactly date and time while preserving the title
and participants, and asks for the date — but when the same input is
reached through the dialog's continue step (queue emptied by the "08:00"
reply), line 791 of the source immediately deactivates the freshly
re-entered context and line 792 announces success, so the next reply is
not consumed by the dialog, contradicting the handler's own stored
follow-up context. -/
theorem past_time_reentry_deactivated :
    (handleMeetingCreation cbNow "ceo" cbData).1 =
      some { active := true, initialMessage := none, missingInfo := ["date", "time"],
             collected := [("title", PyVal.str "Budget"),
               ("participants", PyVal.strList ["marketing"])],
             isRescheduling := false, targetEventId := none } ∧
    (handleMeetingCreation cbNow "ceo" cbData).2.filter isCreateCall = [] ∧
    MEv.askInfo "date" ∈ (handleMeetingCreation cbNow "ceo" cbData).2 ∧
    (continueMeetingCreation cbNow (fun _ => cbData) "ceo" cbCtx "08:00").1.active = false ∧
    (continueMeetingCreation cbNow (fun _ => cbData) "ceo" cbCtx "08:00").1.missingInfo =
      ["date", "time"] ∧
    (continueMeetingCreation cbNow (fun _ => cbData) "ceo" cbCtx "08:00").2.filter
      isCreateCall = [] ∧
    MEv.response "Meeting scheduled successfully with all required information." ∈
      (continueMeetingCreation cbNow (fun _ => cbData) "ceo" cbCtx "08:00").2 := by
  exact ⟨by decide, by decide, by decide, by decide, by decide, by decide, by decide⟩

/-- Concrete rescheduling dialog context whose collected new date/time
"2025-01-01 08:00" is still in the past at the scenario time. -/
def crCtx : MeetingContext :=
  { active := true
    initialMessage := none
    missingInfo := []
    collected := [("title", PyVal.str "Budget sync"), ("date", PyVal.str "2025-01-01"),
      ("time", PyVal.str "08:00")]
    isRescheduling := true
    targetEventId := some "ev1" }

/-- Concrete target event of the rescheduling scenario. -/
def crEvent : CalEvent :=
  { id := "ev1", summary := "Budget sync", start := ⟨2025, 6, 20, 9, 0⟩,
    finish := ⟨2025, 6, 20, 10, 0⟩, attendees := ["marketing@example.com"] }

/-- C2 counterexample: completing a reschedule dialog whose collected new
time "2025-01-01 08:00" is still past at 2025-06-15 12:00 does update the
calendar event — to the self-chosen substitute 2025-06-16 08:00, the next
day at the same clock time — and never re-enters the collection state (no
question is asked), contrary to the claim. -/
theorem reschedule_completion_counterexample :
    completeMeetingRescheduling ⟨2025, 6, 15, 12, 0⟩ ["ceo", "marketing"] crCtx
        (some crEvent) true =
      [MEv.printLine "The provided time is still in the past. Adjusting to tomorrow at the same time.",
        MEv.updateCall ⟨2025, 6, 16, 8, 0⟩ ⟨2025, 6, 16, 9, 0⟩,
        MEv.response ("Meeting " ++ pyQuote ++ "Budget sync" ++ pyQuote ++
          " has been rescheduled."),
        MEv.notify "marketing"] ∧
    (completeMeetingRescheduling ⟨2025, 6, 15, 12, 0⟩ ["ceo", "marketing"] crCtx
        (some crEvent) true).filter isAskInfo = [] ∧
    isUpdateCall (MEv.updateCall ⟨2025, 6, 16, 8, 0⟩ ⟨2025, 6, 16, 9, 0⟩) = true := by
  exact ⟨by decide, by decide, rfl⟩

/-- Notification maps contain no question events. -/
theorem filterIsAskInfoMapNotify (l : List String) :
    (l.map MEv.notify).filter isAskInfo = [] := by
  induction l with
  | nil => rfl
  | cons a t ih => simp [List.filter, isAskInfo, ih]

/-- C2 amended: for every rescheduling dialog whose collected new
date/time parses to a timestamp strictly before now, the completion step
silently moves the meeting to the next day at the same clock time and
updates the calendar event; an unparseable date/time aborts with an error
message and no update; and in no case does the completion step re-enter
the collection state (it never asks a question). -/
theorem reschedule_completion_amended :
    (∀ (now : DT) (registered : List String) (ctx : MeetingContext) (event : CalEvent)
        (parsed : DT),
      ctx.active = true →
      parseDateTime (pyFormatOpt (ctx.collected.lookup "date") ++ " " ++
        pyFormatOpt (ctx.collected.lookup "time")) = some parsed →
      dtLt parsed now = true →
      completeMeetingRescheduling now registered ctx (some event) true =
        MEv.printLine "The provided time is still in the past. Adjusting to tomorrow at the same time." ::
          MEv.updateCall
            ⟨(nextDay now).year, (nextDay now).month, (nextDay now).day,
              parsed.hour, parsed.minute⟩
            (addMinutes
              ⟨(nextDay now).year, (nextDay now).month, (nextDay now).day,
                parsed.hour, parsed.minute⟩
              (dtAbsMin event.finish - dtAbsMin event.start)) ::
          MEv.response ("Meeting " ++ pyQuote ++ event.summary ++ pyQuote ++
            " has been rescheduled.") ::
          ((event.attendees.map localPart).filter (fun a => a ∈ registered)).map
            MEv.notify) ∧
    (∀ (now : DT) (registered : List String) (ctx : MeetingContext) (event : CalEvent),
      ctx.active = true →
      parseDateTime (pyFormatOpt (ctx.collected.lookup "date") ++ " " ++
        pyFormatOpt (ctx.collected.lookup "time")) = none →
      completeMeetingRescheduling now registered ctx (some event) true =
        [MEv.printLine "Error completing meeting rescheduling",
          MEv.response "There was an error rescheduling the meeting. Please try again."]) ∧
    (∀ (now : DT) (registered : List String) (ctx : MeetingContext)
        (g : Option CalEvent) (u : Bool),
      (completeMeetingRescheduling now registered ctx g u).filter isAskInfo = []) := by
  refine ⟨?_, ?_, ?_⟩
  · intro now registered ctx event parsed hact hp hpast
    simp only [completeMeetingRescheduling, hact, hp, hpast, not_true_eq_false, if_false,
      if_true, ite_true, ite_false, List.singleton_append]
  · intro now registered ctx event hact hp
    simp only [completeMeetingRescheduling, hact, hp, not_true_eq_false, if_false,
      if_true, ite_true, ite_false]
  · intro now registered ctx g u
    by_cases hact : ctx.active = true
    · cases g with
      | none => simp [completeMeetingRescheduling, hact, isAskInfo]
      | some event =>
        cases hp : parseDateTime (pyFormatOpt (ctx.collected.lookup "date") ++ " " ++
            pyFormatOpt (ctx.collected.lookup "time")) with
        | none => simp [completeMeetingRescheduling, hact, hp, isAskInfo]
        | some parsed =>
          cases hpast : dtLt parsed now <;> cases u <;>
            simp [completeMeetingRescheduling, hact, hp, hpast, isAskInfo,
              List.filter_append, List.filter, filterIsAskInfoMapNotify]
    · simp [completeMeetingRescheduling, hact]

/-- Witness for C2 amended: the past-time branch applied at the concrete
scenario of the rescheduling dialog. -/
theorem reschedule_completion_amended_witness :
    completeMeetingRescheduling ⟨2025, 6, 15, 12, 0⟩ ["marketing"] crCtx (some crEvent)
        true =
      MEv.printLine "The provided time is still in the past. Adjusting to tomorrow at the same time." ::
        MEv.updateCall ⟨2025, 6, 16, 8, 0⟩
          (addMinutes ⟨2025, 6, 16, 8, 0⟩
            (dtAbsMin crEvent.finish - dtAbsMin crEvent.start)) ::
        MEv.response ("Meeting " ++ pyQuote ++ crEvent.summary ++ pyQuote ++
          " has been rescheduled.") ::
        ((crEvent.attendees.map localPart).filter (fun a => a ∈ ["marketing"])).map
          MEv.notify :=
  reschedule_completion_amended.1 ⟨2025, 6, 15, 12, 0⟩ ["marketing"] crCtx crEvent
    ⟨2025, 1, 1, 8, 0⟩ (by decide) (by decide) (by decide)

/-- External calendar-delete invocations in the cancellation trace. -/
def isDeleteCall : CancelEv → Bool
  | CancelEv.deleteCall _ => true
  | _ => false

/-- Attendee-notification maps contain no delete calls. -/
theorem filterIsDeleteCallMapNotify (i : String) (l : List String) :
    (l.map (fun a => CancelEv.notify a i)).filter isDeleteCall = [] := by
  induction l with
  | nil => rfl
  | cons a t ih => simp [List.filter, isDeleteCall, ih]

/-- C6 (cancellation AND semantics): an upcoming event is cancelled
(externally deleted, removed locally, attendees notified) exactly when it
satisfies every supplied filter simultaneously — a truthy title filter
must occur in the lowercased summary, a nonempty participants filter must
intersect the attendee local parts, and a truthy date filter must occur in
a nonempty raw start string — so an absent filter imposes no constraint,
an event failing any one supplied filter is never cancelled, and zero
matches produce the "nothing matched" report rather than an error. -/
theorem cancellation_and_semantics :
    (∀ (d : CancelData) (ev : CancelEvent),
      cancellationMatches d ev = true ↔
        ((truthy d.title = true →
            strContains (strLower ev.summary) (strLower (d.title.getD "")) = true) ∧
          (d.withParticipants ≠ [] →
            (d.withParticipants.map strLower).any
              (fun p => (ev.attendees.map (fun a => strLower (localPart a))).contains p) =
              true) ∧
          (truthy d.date = true → ev.startRaw ≠ "" →
            strContains ev.startRaw (d.date.getD "") = true))) ∧
    (∀ (d : CancelData) (registered : List String) (events : List CancelEvent),
      (cancellationEffects d registered events).filter isDeleteCall =
        (events.filter (cancellationMatches d)).map
          (fun ev => CancelEv.deleteCall ev.id)) ∧
    (∀ (d : CancelData) (events : List CancelEvent),
      (events.filter (cancellationMatches d)).length = 0 →
      cancellationReport d events = "No meetings found matching the cancellation criteria") := by
  refine ⟨?_, ?_, ?_⟩
  · intro d ev
    unfold cancellationMatches shouldCancel
    cases h1 : truthy d.title <;>
      cases h2 : strContains (strLower ev.summary) (strLower (d.title.getD "")) <;>
      cases h3 : (d.withParticipants.map strLower).isEmpty <;>
      cases h4 : (d.withParticipants.map strLower).any
        (fun p => (ev.attendees.map (fun a => strLower (localPart a))).contains p) <;>
      cases h5 : truthy d.date <;>
      cases h6 : (ev.startRaw == "") <;>
      cases h7 : strContains ev.startRaw (d.date.getD "") <;>
      simp_all [List.isEmpty_iff, List.map_eq_nil_iff]
  · intro d registered events
    induction events with
    | nil => rfl
    | cons ev rest ih =>
      by_cases hm : cancellationMatches d ev = true
      · simp [cancellationEffects, hm, List.filter_append, List.filter, isDeleteCall,
          filterIsDeleteCallMapNotify, ih]
      · simp [cancellationEffects, hm, List.filter, ih]
  · intro d events h
    simp [cancellationReport, h]

/-- Witness for C6: an event matching only two of three supplied filters
(title and participant match, date does not) is not cancelled, while the
fully matching event is, and an empty upcoming list reports "nothing
matched". -/
theorem cancellation_and_semantics_witness :
    cancellationMatches
        ⟨some "budget", ["Marketing"], some "2025-07-01"⟩
        ⟨"e1", "Budget sync", ["marketing@example.com"], "2025-08-02T09:00:00Z"⟩ = false ∧
    cancellationMatches
        ⟨some "budget", ["Marketing"], some "2025-07-01"⟩
        ⟨"e2", "Budget sync", ["marketing@example.com"], "2025-07-01T09:00:00Z"⟩ = true ∧
    (cancellationEffects ⟨some "budget", ["Marketing"], some "2025-07-01"⟩ ["marketing"]
        [⟨"e1", "Budget sync", ["marketing@example.com"], "2025-08-02T09:00:00Z"⟩]).filter
        isDeleteCall = [] ∧
    cancellationReport ⟨some "budget", ["Marketing"], some "2025-07-01"⟩ [] =
      "No meetings found matching the cancellation criteria" := by
  refine ⟨?_, by decide, ?_, ?_⟩
  · have h := (cancellation_and_semantics.1
      ⟨some "budget", ["Marketing"], some "2025-07-01"⟩
      ⟨"e1", "Budget sync", ["marketing@example.com"], "2025-08-02T09:00:00Z"⟩)
    by_cases hc : cancellationMatches
        ⟨some "budget", ["Marketing"], some "2025-07-01"⟩
        ⟨"e1", "Budget sync", ["marketing@example.com"], "2025-08-02T09:00:00Z"⟩ = true
    · exfalso
      have h2 := (h.mp hc).2.2 (by decide) (by decide)
      exact absurd h2 (by decide)
    · simpa using hc
  · have h := cancellation_and_semantics.2.1
      ⟨some "budget", ["Marketing"], some "2025-07-01"⟩ ["marketing"]
      [⟨"e1", "Budget sync", ["marketing@example.com"], "2025-08-02T09:00:00Z"⟩]
    rw [h]
    decide
  · exact cancellation_and_semantics.2.2 ⟨some "budget", ["Marketing"], some "2025-07-01"⟩
      [] (by decide)

/-- C7 (email confirmation classification): a CONFIRMING-state reply is
classified with the negative-indicator list checked before the positive
one, so any reply containing a negative indicator is a decline even if it
also contains positive indicators; a non-positive reply (for example
"nevermind") deactivates the dialog, emits the cancellation notice, and
never invokes the send collaborator; a positive reply with a nonempty
collected recipient and body leads with the send-collaborator call. -/
theorem email_confirmation_classification :
    (∀ (m i : String), i ∈ negativeIndicators →
      strContains (pyStrip (strLower m)) i = true → isConfirmationPositive m = false) ∧
    (∀ (parseSB : String → String × String) (nodeId : String) (sendOk : Bool)
        (ctx : EmailContext) (m : String),
      ctx.active = true → ctx.missingInfo = [] → ctx.state = "confirming" →
      isConfirmationPositive m = false →
      (continueEmailComposition parseSB nodeId sendOk ctx m).1.active = false ∧
      (continueEmailComposition parseSB nodeId sendOk ctx m).2 =
        [EmailEv.response "Email sending cancelled. You can start over or modify your request."] ∧
      (continueEmailComposition parseSB nodeId sendOk ctx m).2.filter isSendCall = []) ∧
    (∀ (parseSB : String → String × String) (nodeId : String) (sendOk : Bool)
        (ctx : EmailContext) (m : String),
      ctx.active = true → ctx.missingInfo = [] → ctx.state = "confirming" →
      isConfirmationPositive m = true → ctx.collected.recipient ≠ "" →
      ctx.collected.body ≠ "" →
      (continueEmailComposition parseSB nodeId sendOk ctx m).2.head? =
        some (EmailEv.sendCall (resolveEmailRecipient ctx.collected.recipient)
          (resolveEmailSubject nodeId ctx.collected.subject ctx.collected.body)
          ctx.collected.body)) ∧
    isConfirmationPositive "nevermind" = false := by
  refine ⟨?_, ?_, ?_, by decide⟩
  · intro m i hi hc
    have hany : negativeIndicators.any
        (fun j => strContains (pyStrip (strLower m)) j) = true :=
      List.any_eq_true.mpr ⟨i, hi, hc⟩
    simp [isConfirmationPositive, hany]
  · intro parseSB nodeId sendOk ctx m hact hmi hstate hneg
    refine ⟨?_, ?_, ?_⟩ <;>
      simp [continueEmailComposition, hact, hmi, hstate, hneg, isSendCall, List.filter]
  · intro parseSB nodeId sendOk ctx m hact hmi hstate hpos hr hb
    have hrb : ¬ (ctx.collected.recipient = "" ∨ ctx.collected.body = "") := by
      rintro (h | h)
      · exact hr h
      · exact hb h
    simp [continueEmailComposition, hact, hmi, hstate, hpos,
      sendEmailAfterConfirmation, hrb]

/-- Witness for C7: at a concrete CONFIRMING context, the reply
"nevermind" deactivates the dialog without any send call, and the reply
"yes" leads with the send call for the resolved recipient. -/
theorem email_confirmation_classification_witness :
    (continueEmailComposition (fun m => (m, "")) "ceo" true
        ⟨true, "send an email", [], ⟨"marketing", "Update", "Body text here"⟩, "confirming"⟩
        "nevermind").2.filter isSendCall = [] ∧
    (continueEmailComposition (fun m => (m, "")) "ceo" true
        ⟨true, "send an email", [], ⟨"marketing", "Update", "Body text here"⟩, "confirming"⟩
        "yes").2.head? =
      some (EmailEv.sendCall (resolveEmailRecipient "marketing")
        (resolveEmailSubject "ceo" "Update" "Body text here") "Body text here") :=
  ⟨(email_confirmation_classification.2.1 (fun m => (m, "")) "ceo" true
      ⟨true, "send an email", [], ⟨"marketing", "Update", "Body text here"⟩, "confirming"⟩
      "nevermind" rfl rfl rfl (by decide)).2.2,
    email_confirmation_classification.2.2.1 (fun m => (m, "")) "ceo" true
      ⟨true, "send an email", [], ⟨"marketing", "Update", "Body text here"⟩, "confirming"⟩
      "yes" rfl rfl rfl (by decide) (by decide) (by decide)⟩

/-- The fallback participant loop never produces a bus message: the events
it accumulates are console lines only. -/
theorem fallbackFoldl_busMessages (registered : List String) (projectId : String)
    (r : MeetingRec) :
    ∀ (ps : List String) (acc : (String → List MeetingRec) × List SchedEv),
      ((ps.foldl (fallbackStep registered projectId r) acc).2).filter isBusMessage =
        acc.2.filter isBusMessage := by
  intro ps
  induction ps with
  | nil => intro acc; rfl
  | cons p t ih =>
    intro acc
    rw [List.foldl_cons, ih]
    by_cases hp : p ∈ registered
    · simp [fallbackStep, hp, List.filter_append, List.filter, isBusMessage]
    · simp [fallbackStep, hp]

/-- Calendar membership is preserved by the fallback participant loop. -/
theorem fallbackFoldl_cal_mono (registered : List String) (projectId : String)
    (r : MeetingRec) :
    ∀ (ps : List String) (acc : (String → List MeetingRec) × List SchedEv)
      (n : String) (r2 : MeetingRec), r2 ∈ acc.1 n →
      r2 ∈ ((ps.foldl (fallbackStep registered projectId r) acc).1) n := by
  intro ps
  induction ps with
  | nil => intro acc n r2 h; exact h
  | cons p t ih =>
    intro acc n r2 h
    rw [List.foldl_cons]
    refine ih _ n r2 ?_
    by_cases hp : p ∈ registered
    · by_cases hn : n = p
      · subst hn
        simp [fallbackStep, hp, calAppend, List.mem_append, h]
      · simp [fallbackStep, hp, calAppend, hn, h]
    · simpa [fallbackStep, hp] using h

/-- Each registered participant of the fallback loop ends up with the
record in its calendar. -/
theorem fallbackFoldl_cal_mem (registered : List String) (projectId : String)
    (r : MeetingRec) :
    ∀ (ps : List String) (acc : (String → List MeetingRec) × List SchedEv) (p : String),
      p ∈ ps → p ∈ registered →
      r ∈ ((ps.foldl (fallbackStep registered projectId r) acc).1) p := by
  intro ps
  induction ps with
  | nil => intro acc p h; exact absurd h (List.not_mem_nil p)
  | cons q t ih =>
    intro acc p hmem hreg
    rw [List.foldl_cons]
    rcases List.mem_cons.mp hmem with rfl | hmem2
    · refine fallbackFoldl_cal_mono registered projectId r t _ p r ?_
      simp [fallbackStep, hreg, calAppend]
    · exact ih _ p hmem2 hreg

/-- Event membership is preserved by the fallback participant loop. -/
theorem fallbackFoldl_ev_mono (registered : List String) (projectId : String)
    (r : MeetingRec) :
    ∀ (ps : List String) (acc : (String → List MeetingRec) × List SchedEv) (e : SchedEv),
      e ∈ acc.2 → e ∈ (ps.foldl (fallbackStep registered projectId r) acc).2 := by
  intro ps
  induction ps with
  | nil => intro acc e h; exact h
  | cons p t ih =>
    intro acc e h
    rw [List.foldl_cons]
    refine ih _ e ?_
    by_cases hp : p ∈ registered
    · simp [fallbackStep, hp, List.mem_append, h]
    · simpa [fallbackStep, hp] using h

/-- Each registered participant of the fallback loop gets its `Notified`
console line. -/
theorem fallbackFoldl_notified (registered : List String) (projectId : String)
    (r : MeetingRec) :
    ∀ (ps : List String) (acc : (String → List MeetingRec) × List SchedEv) (p : String),
      p ∈ ps → p ∈ registered →
      SchedEv.printLine ("Notified " ++ p ++ " about meeting for project " ++ pyQuote ++
          projectId ++ pyQuote ++ ".") ∈
        (ps.foldl (fallbackStep registered projectId r) acc).2 := by
  intro ps
  induction ps with
  | nil => intro acc p h; exact absurd h (List.not_mem_nil p)
  | cons q t ih =>
    intro acc p hmem hreg
    rw [List.foldl_cons]
    rcases List.mem_cons.mp hmem with rfl | hmem2
    · refine fallbackFoldl_ev_mono registered projectId r t _ _ ?_
      simp [fallbackStep, hreg, List.mem_append]
    · exact ih _ p hmem2 hreg

/-- C8 counterexample: with the calendar collaborator unavailable,
scheduling with the registered non-creator participant "marketing"
produces zero bus messages — the participants are not informed over the
bus, contrary to the claim. -/
theorem calendar_fallback_counterexample :
    (createCalendarMeeting ⟨2025, 6, 15, 12, 0⟩ "ceo" ["ceo", "marketing"] false none
        "p1" "Budget" ["marketing", "ceo"] ⟨2025, 6, 20, 9, 0⟩ (fun _ => [])).2.filter
        isBusMessage = [] ∧
    "marketing" ∈ (["marketing", "ceo"] : List String) ∧
    ("marketing" : String) ≠ "ceo" ∧
    "marketing" ∈ (["ceo", "marketing"] : List String) := by
  exact ⟨by decide, by decide, by decide, by decide⟩

/-- C8 amended: when the calendar collaborator is unavailable or its
create call fails, the handler falls back to local-only scheduling: a
record with no event id is appended to the creator's calendar and to the
calendar of every registered participant, each registered participant
gets a `Notified` console diagnostic — but no bus message is sent by
either failure path or by the fallback itself. -/
theorem calendar_fallback_amended (now : DT) (nodeId : String) (registered : List String)
    (meetingId title : String) (participants : List String) (start : DT)
    (cals : String → List MeetingRec) :
    (createCalendarMeeting now nodeId registered false none meetingId title participants
        start cals).2.filter isBusMessage = [] ∧
    (createCalendarMeeting now nodeId registered true none meetingId title participants
        start cals).2.filter isBusMessage = [] ∧
    (fallbackRecord now meetingId).eventId = none ∧
    fallbackRecord now meetingId ∈
      (fallbackScheduleMeeting now nodeId registered meetingId participants cals).1
        nodeId ∧
    (∀ p, p ∈ participants → p ∈ registered →
      fallbackRecord now meetingId ∈
        (fallbackScheduleMeeting now nodeId registered meetingId participants cals).1 p ∧
      SchedEv.printLine ("Notified " ++ p ++ " about meeting for project " ++ pyQuote ++
          meetingId ++ pyQuote ++ ".") ∈
        (fallbackScheduleMeeting now nodeId registered meetingId participants cals).2) ∧
    (fallbackScheduleMeeting now nodeId registered meetingId participants cals).2.filter
      isBusMessage = [] := by
  have hfb : (fallbackScheduleMeeting now nodeId registered meetingId participants
      cals).2.filter isBusMessage = [] := by
    unfold fallbackScheduleMeeting
    rw [fallbackFoldl_busMessages]
    rfl
  refine ⟨?_, ?_, rfl, ?_, ?_, hfb⟩
  · show (SchedEv.printLine "Calendar service not available, using local scheduling" ::
      (fallbackScheduleMeeting now nodeId registered meetingId participants
        cals).2).filter isBusMessage = []
    rw [List.filter_cons_of_neg (by decide), hfb]
  · show (SchedEv.insertCall :: SchedEv.printLine "Failed to create calendar event" ::
      (fallbackScheduleMeeting now nodeId registered meetingId participants
        cals).2).filter isBusMessage = []
    rw [List.filter_cons_of_neg (by decide), List.filter_cons_of_neg (by decide), hfb]
  · unfold fallbackScheduleMeeting
    refine fallbackFoldl_cal_mono registered meetingId (fallbackRecord now meetingId)
      participants _ nodeId _ ?_
    simp [calAppend]
  · intro p hp hr
    constructor
    · unfold fallbackScheduleMeeting
      exact fallbackFoldl_cal_mem registered meetingId (fallbackRecord now meetingId)
        participants _ p hp hr
    · unfold fallbackScheduleMeeting
      exact fallbackFoldl_notified registered meetingId (fallbackRecord now meetingId)
        participants _ p hp hr

/-- Witness for C8 amended: the registered participant "marketing"
records the local-only fallback record, and the unavailable-service path
at the same input yields no bus message. -/
theorem calendar_fallback_amended_witness :
    fallbackRecord ⟨2025, 6, 15, 12, 0⟩ "p1" ∈
      (fallbackScheduleMeeting ⟨2025, 6, 15, 12, 0⟩ "ceo" ["ceo", "marketing"] "p1"
        ["marketing"] (fun _ => [])).1 "marketing" ∧
    (createCalendarMeeting ⟨2025, 6, 15, 12, 0⟩ "ceo" ["ceo", "marketing"] false none
        "p1" "Budget" ["marketing"] ⟨2025, 6, 20, 9, 0⟩ (fun _ => [])).2.filter
      isBusMessage = [] := by
  have h := calendar_fallback_amended ⟨2025, 6, 15, 12, 0⟩ "ceo" ["ceo", "marketing"]
    "p1" "Budget" ["marketing"] ⟨2025, 6, 20, 9, 0⟩ (fun _ => [])
  exact ⟨(h.2.2.2.2.1 "marketing" (by decide) (by decide)).1, h.1⟩
